import Mathlib

/-!
Shallow embedding of the antenna message-triage pipeline:
the routing engine (`RoutingHandler`), the persistent queue
(`QueueManager`) and the outbound RabbitMQ transport
(`RabbitMQSender`), together with theorems settling the
stated behavioural claims.
-/

namespace Antenna

/-! ## String helpers (JS string methods used by the routing rules) -/

/-- JS `String.prototype.includes` on character lists: `needle` occurs
as a contiguous run inside the haystack. -/
def isInfixChars (needle : List Char) : List Char → Bool
  | [] => needle.isEmpty
  | c :: cs => needle.isPrefixOf (c :: cs) || isInfixChars needle cs

/-- JS `hay.includes(needle)`. -/
def strIncludes (hay needle : String) : Bool :=
  isInfixChars needle.data hay.data

/-- JS `String.prototype.toLowerCase` (ASCII range; the rule keywords
are all ASCII). -/
def strToLower (s : String) : String :=
  ⟨s.data.map Char.toLower⟩

/-- JS `String.prototype.trim`: strip leading and trailing
whitespace. -/
def strTrim (s : String) : String :=
  ⟨((s.data.dropWhile Char.isWhitespace).reverse.dropWhile Char.isWhitespace).reverse⟩

/-- JS `s.startsWith(p)`. -/
def strStartsWith (s p : String) : Bool :=
  p.data.isPrefixOf s.data

/-- JS `s.endsWith(p)`. -/
def strEndsWith (s p : String) : Bool :=
  p.data.reverse.isPrefixOf s.data.reverse

/-! ## Routing data model (`RoutingHandler.ts`, `QueueManager.ts` types) -/

inductive Priority
  | urgent | high | normal | low
deriving DecidableEq, Repr

inductive Status
  | pending | processing | resolved | failed
deriving DecidableEq, Repr

inductive RoutingAction
  | notify | queue | autoRespond | ignore
deriving DecidableEq, Repr

inductive MsgChannel
  | sms | email | other
deriving DecidableEq, Repr

/-- Normalized inbound message. The `metadata` record of the source is
kept as an opaque optional string (its JSON serialization). -/
structure IncomingMessage where
  sender : String
  content : String
  channel : MsgChannel
  timestamp : Option Nat := none
  metadata : Option String := none

structure AutoResponse where
  template : String
  channel : MsgChannel
  subject : Option String := none

structure RoutingRule where
  condition : IncomingMessage → Bool
  priority : Priority
  action : RoutingAction
  autoResponse : Option AutoResponse := none

/-! ## Default routing rules (`RoutingHandler.initializeDefaultRules`) -/

def urgentKeywords : List String :=
  ["urgent", "emergency", "911", "help", "asap", "critical"]

def importantKeywords : List String :=
  ["important", "priority", "deadline", "tomorrow"]

def spamKeywords : List String :=
  ["free", "win", "prize", "click here", "unsubscribe"]

/-- Rule 1: emergency keywords, urgent + notify. -/
def rule1 : RoutingRule :=
  { condition := fun m => urgentKeywords.any (fun k => strIncludes (strToLower m.content) k)
    priority := .urgent
    action := .notify }

/-- Rule 2: important keywords, high + notify. -/
def rule2 : RoutingRule :=
  { condition := fun m => importantKeywords.any (fun k => strIncludes (strToLower m.content) k)
    priority := .high
    action := .notify }

/-- Rule 3: questions, queue for later review. -/
def rule3 : RoutingRule :=
  { condition := fun m =>
      strEndsWith (strTrim m.content) "?"
        || strStartsWith (strToLower (strTrim m.content)) "can you"
    priority := .normal
    action := .queue }

/-- Rule 4: known spam patterns, ignore. -/
def rule4 : RoutingRule :=
  { condition := fun m => spamKeywords.any (fun k => strIncludes (strToLower m.content) k)
    priority := .low
    action := .ignore }

/-- Rule 5: catch-all default, queue with normal priority. -/
def catchAllRule : RoutingRule :=
  { condition := fun _ => true
    priority := .normal
    action := .queue }

def defaultRules : List RoutingRule :=
  [rule1, rule2, rule3, rule4, catchAllRule]

/-- The made-up rule returned at line 141 of the source when the loop in
`findMatchingRule` exhausts the list ("should never happen"). -/
def fallbackRule : RoutingRule :=
  { condition := fun _ => true
    priority := .normal
    action := .queue }

/-- Model of `RoutingHandler.addRule`: `splice(length - 1, 0, rule)`, i.e. insert
immediately before the last element (the catch-all). -/
def addRule (rules : List RoutingRule) (r : RoutingRule) : List RoutingRule :=
  rules.take (rules.length - 1) ++ r :: rules.drop (rules.length - 1)

/-- Model of `RoutingHandler.findMatchingRule`: first rule whose condition holds,
else the hardcoded fallback. -/
def findMatchingRule (rules : List RoutingRule) (m : IncomingMessage) : RoutingRule :=
  (rules.find? (fun r => r.condition m)).getD fallbackRule

/-! ## PersistentQueue (`QueueManager.ts`) -/

/-- A row of the `messages` table. -/
structure Row where
  id : Nat
  sender : String
  content : String
  priority : Priority
  status : Status
  timestamp : Nat
  routing_action : RoutingAction
  metadata : Option String := none
deriving DecidableEq, Repr

/-- Database state: the `messages` table. -/
structure QMState where
  rows : List Row
deriving DecidableEq, Repr

/-- The `INTEGER PRIMARY KEY AUTOINCREMENT` column: one more than the largest id
ever used. No row is ever deleted, so this is max of the live ids plus
one. -/
def freshId (qm : QMState) : Nat :=
  (qm.rows.map Row.id).foldr max 0 + 1

/-- Model of `QueueManager.addToQueue`: insert with status `pending` and the
current time as timestamp; returns the new row id. -/
def addToQueue (qm : QMState) (message : String) (priority : Priority)
    (action : RoutingAction) (sender : String) (now : Nat)
    (metadata : Option String) : Nat × QMState :=
  let i := freshId qm
  (i, ⟨qm.rows ++ [⟨i, sender, message, priority, .pending, now, action, metadata⟩]⟩)

/-- Model of `QueueManager.updateStatus`: `UPDATE messages SET status = ? WHERE id = ?`;
raises when no row changed. -/
def updateStatus (qm : QMState) (messageId : Nat) (status : Status) :
    Except String QMState :=
  if qm.rows.any (fun r => r.id == messageId) then
    .ok ⟨qm.rows.map (fun r => if r.id == messageId then { r with status := status } else r)⟩
  else
    .error ("Failed to update message status: Message " ++ toString messageId ++ " not found")

/-- Model of `QueueManager.getMessage`: `SELECT * FROM messages WHERE id = ?`
(`stmt.get`, first matching row, or null). -/
def getMessage (qm : QMState) (messageId : Nat) : Option Row :=
  qm.rows.find? (fun r => r.id == messageId)

structure QueueFilters where
  status : Option Status := none
  priority : Option Priority := none
  routing_action : Option RoutingAction := none
  sender : Option String := none
  limit : Option Nat := none
  offset : Option Nat := none

/-- JS truthiness of an optional number (`if (filters.limit)`):
absent or zero is falsy. -/
def truthyNat : Option Nat → Bool
  | some n => n != 0
  | none => false

/-- JS truthiness of an optional string (`if (filters.sender)`):
absent or empty is falsy. -/
def truthyStr : Option String → Bool
  | some s => s != ""
  | none => false

/-- The conjunction of the `AND` clauses `getQueue` appends to the query,
in source order; a falsy filter value contributes no clause. -/
def matchesFilters (f : QueueFilters) (r : Row) : Bool :=
  (match f.status with | some s => decide (r.status = s) | none => true)
  && (match f.priority with | some p => decide (r.priority = p) | none => true)
  && (match f.routing_action with | some a => decide (r.routing_action = a) | none => true)
  && (if truthyStr f.sender then decide (r.sender = f.sender.getD "") else true)

/-- Insert keeping the list sorted by `timestamp` descending. -/
def insertByTs (r : Row) : List Row → List Row
  | [] => [r]
  | x :: xs => if x.timestamp ≤ r.timestamp then r :: x :: xs else x :: insertByTs r xs

/-- The `ORDER BY timestamp DESC` step. -/
def sortNewestFirst (l : List Row) : List Row :=
  l.foldr insertByTs []

/-- Model of `QueueManager.getQueue`. The query is built as
`SELECT ... WHERE 1=1 [AND ...] ORDER BY timestamp DESC [LIMIT ?] [OFFSET ?]`.
When a truthy `offset` is supplied without a truthy `limit`, the text
contains `OFFSET` with no preceding `LIMIT`; the SQLite grammar only
admits `OFFSET` inside a `LIMIT` clause, so `db.prepare` throws a
syntax error, which the catch block rethrows. With both present,
`LIMIT l OFFSET o` skips the first `o` ordered rows and returns at most
`l` of the rest. -/
def getQueue (qm : QMState) (f : QueueFilters) : Except String (List Row) :=
  if truthyNat f.offset && !(truthyNat f.limit) then
    .error "Failed to retrieve queue: near OFFSET: syntax error"
  else
    let sorted := sortNewestFirst (qm.rows.filter (matchesFilters f))
    let page :=
      if truthyNat f.limit then
        if truthyNat f.offset then
          (sorted.drop (f.offset.getD 0)).take (f.limit.getD 0)
        else
          sorted.take (f.limit.getD 0)
      else sorted
    .ok page

/-! ## RoutingHandler.process -/

/-- Environment of one `process` call: the clock and the outcomes of the
external Telegram / auto-response collaborators. -/
structure ProcEnv where
  now : Nat
  notifySucceeds : Bool
  respondSucceeds : Bool

structure ProcessingResult where
  messageId : Int
  action : RoutingAction
  priority : Priority
  notified : Bool
  responded : Bool
  error : Option String := none
deriving DecidableEq, Repr

/-- One `markProcessing` / `markResolved` / `markFailed` call, recording
the status-update event. -/
def applyMark (qm : QMState) (evs : List (Nat × Status)) (i : Nat) (st : Status) :
    Except String (QMState × List (Nat × Status)) :=
  match updateStatus qm i st with
  | .ok qm2 => .ok (qm2, evs ++ [(i, st)])
  | .error e => .error e

/-- Model of `RoutingHandler.process`: match a rule, insert the row as `pending`,
then dispatch on the action. Besides the result it returns the final
database state and the ordered list of status-update events performed.
The serialized metadata written by the source (`{...metadata, channel,
processedAt}`) is abstracted by forwarding the opaque message
metadata string. -/
def process (env : ProcEnv) (rules : List RoutingRule) (qm : QMState)
    (m : IncomingMessage) : ProcessingResult × QMState × List (Nat × Status) :=
  let rule := findMatchingRule rules m
  let (i, qm1) := addToQueue qm m.content rule.priority rule.action m.sender env.now m.metadata
  let mkRes := fun (n r : Bool) =>
    ({ messageId := (i : Int), action := rule.action, priority := rule.priority,
       notified := n, responded := r } : ProcessingResult)
  let errRes := fun (e : String) (q : QMState) (evs : List (Nat × Status)) =>
    (({ messageId := -1, action := .queue, priority := .normal,
        notified := false, responded := false, error := some e } : ProcessingResult), q, evs)
  if rule.action = .notify then
    match applyMark qm1 [] i .processing with
    | .error e => errRes e qm1 []
    | .ok (qm2, evs2) =>
      let ok := env.notifySucceeds
      match applyMark qm2 evs2 i (if ok then .resolved else .failed) with
      | .error e => errRes e qm2 evs2
      | .ok (qm3, evs3) => (mkRes ok false, qm3, evs3)
  else if rule.action = .autoRespond ∧ rule.autoResponse.isSome then
    match applyMark qm1 [] i .processing with
    | .error e => errRes e qm1 []
    | .ok (qm2, evs2) =>
      let ok := env.respondSucceeds
      match applyMark qm2 evs2 i (if ok then .resolved else .failed) with
      | .error e => errRes e qm2 evs2
      | .ok (qm3, evs3) => (mkRes false ok, qm3, evs3)
  else if rule.action = .ignore then
    match applyMark qm1 [] i .resolved with
    | .error e => errRes e qm1 []
    | .ok (qm2, evs2) => (mkRes false false, qm2, evs2)
  else
    (mkRes false false, qm1, [])

/-! ## OutboundTransport (`RabbitMQSender.ts`) -/

/-- Configuration after the constructor merge with the defaults
`reconnectDelayMs = 5000`, `maxReconnectAttempts = 10`. -/
structure RMQConfig where
  reconnectDelayMs : Nat := 5000
  maxReconnectAttempts : Nat := 10
deriving DecidableEq, Repr

/-- The fallback `this.config.maxReconnectAttempts || 10`: a zero value is falsy in
JS and falls back to 10. -/
def maxAttempts (cfg : RMQConfig) : Nat :=
  if cfg.maxReconnectAttempts = 0 then 10 else cfg.maxReconnectAttempts

/-- The `deliveryCallbacks` JS `Map`; callbacks are opaque labels. -/
abbrev CallbackMap := List (String × Nat)

/-- JS `Map.get`. -/
def mapGet (m : CallbackMap) (k : String) : Option Nat :=
  (m.find? (fun p => p.1 == k)).map Prod.snd

/-- JS `Map.set`: replace the value at an existing key in place, else
append the new binding. -/
def mapSet : CallbackMap → String → Nat → CallbackMap
  | [], k, v => [(k, v)]
  | p :: t, k, v => if p.1 == k then (k, v) :: t else p :: mapSet t k v

/-- JS `Map.delete`. -/
def mapDelete (m : CallbackMap) (k : String) : CallbackMap :=
  m.filter (fun p => p.1 != k)

/-- The mutable fields of a `RabbitMQSender`. `channel` and
`connectionModel` record whether the handles are set; `reconnectTimer`
whether a reconnect timer is pending. `scheduledCount` instruments the
state with the total number of `setTimeout` calls `scheduleReconnect`
has ever made. -/
structure SenderState where
  isConnected : Bool := false
  isConnecting : Bool := false
  reconnectAttempts : Nat := 0
  deliveryCallbacks : CallbackMap := []
  reconnectTimer : Bool := false
  channel : Bool := false
  connectionModel : Bool := false
  scheduledCount : Nat := 0
deriving DecidableEq, Repr

/-- The state of a freshly constructed sender. -/
def initialSenderState : SenderState := {}

/-- Model of `RabbitMQSender.scheduleReconnect`: no-op when a timer is already
pending or the attempt bound is reached; otherwise count the attempt
and arm the timer. -/
def scheduleReconnect (cfg : RMQConfig) (s : SenderState) : SenderState :=
  if s.reconnectTimer then s
  else if maxAttempts cfg ≤ s.reconnectAttempts then s
  else
    { s with reconnectAttempts := s.reconnectAttempts + 1,
             reconnectTimer := true,
             scheduledCount := s.scheduledCount + 1 }

/-- Model of `RabbitMQSender.connect`, with the broker behaviour abstracted by
`ok` (whether the connection attempt succeeds). Returns the new state
and whether the call returned normally (`false` means it threw). A call
while connected or connecting returns immediately. On failure the catch
block clears `isConnecting`, schedules a reconnect and rethrows. -/
def connectAttempt (cfg : RMQConfig) (ok : Bool) (s : SenderState) :
    SenderState × Bool :=
  if s.isConnected || s.isConnecting then (s, true)
  else if ok then
    ({ s with isConnected := true, isConnecting := false, channel := true,
              connectionModel := true, reconnectAttempts := 0 }, true)
  else
    (scheduleReconnect cfg { s with isConnecting := false }, false)

/-- The reconnect timer firing: clear the timer, then call `connect`
(whose rejection is swallowed by the `.catch`). -/
def timerFire (cfg : RMQConfig) (ok : Bool) (s : SenderState) : SenderState :=
  if s.reconnectTimer then
    (connectAttempt cfg ok { s with reconnectTimer := false }).1
  else s

/-- Runs `n` consecutive firings of the reconnect timer (each attempt
failing when `ok = false`). -/
def fireMany (cfg : RMQConfig) (ok : Bool) : Nat → SenderState → SenderState
  | 0, s => s
  | n + 1, s => fireMany cfg ok n (timerFire cfg ok s)

structure SenderStatus where
  connected : Bool
  reconnectAttempts : Nat
  pendingCallbacks : Nat
deriving DecidableEq, Repr

/-- Model of `RabbitMQSender.getStatus`. -/
def getStatus (s : SenderState) : SenderStatus :=
  { connected := s.isConnected
    reconnectAttempts := s.reconnectAttempts
    pendingCallbacks := s.deliveryCallbacks.length }

/-- Model of `RabbitMQSender.validateE164`: the regex `^\+[1-9]\d{1,14}$`. -/
def validateE164 (phoneNumber : String) : Bool :=
  match phoneNumber.data with
  | '+' :: c :: rest =>
      ('1' ≤ c && c ≤ '9') && rest.all Char.isDigit
        && (1 ≤ rest.length && rest.length ≤ 14)
  | _ => false

/-- Behaviour of `channel.sendToQueue`: returns true (`accepted`),
returns false with the buffer full (`bufferFull`, followed eventually
by a `drain` event), or throws (`raise`). -/
inductive PublishOutcome
  | accepted
  | bufferFull
  | raise (msg : String)
deriving DecidableEq, Repr

/-- Environment of one `sendSMS` call: broker behaviour and the two
values `randomUUID()` would produce for the message id and the default
sid. -/
structure SendEnv where
  connectSucceeds : Bool
  publish : PublishOutcome
  freshId : String
  freshSid : String
deriving DecidableEq, Repr

structure SendResult where
  success : Bool
  messageId : Option String := none
  error : Option String := none
deriving DecidableEq, Repr

/-- The `DekuSMSMessage` envelope published to the outbound queue. -/
structure Envelope where
  sid : String
  id : String
  «to» : String
  text : String
deriving DecidableEq, Repr

/-- Everything observable about one `sendSMS` call: its returned result,
the final sender state, the envelopes published to the broker, whether a
`connect` was attempted, and whether the call suspended on a `drain`
event before resolving. -/
structure SendOutcome where
  result : SendResult
  state : SenderState
  published : List Envelope
  connectTried : Bool
  waitedForDrain : Bool
deriving DecidableEq, Repr

/-- Model of `RabbitMQSender.sendSMS`. -/
def sendSMS (cfg : RMQConfig) (env : SendEnv) (s : SenderState)
    («to» text : String) (sid : Option String) (onDelivery : Option Nat) :
    SendOutcome :=
  if !validateE164 «to» then
    { result := { success := false
                  error := some ("Invalid phone number format: " ++ «to»
                    ++ ". Must be E.164 format (e.g., +15551234567)") }
      state := s, published := [], connectTried := false, waitedForDrain := false }
  else
    let ensured : SenderState × Bool × Bool :=
      if !s.isConnected then
        let (s2, ok) := connectAttempt cfg env.connectSucceeds s
        (s2, ok, true)
      else (s, true, false)
    let s1 := ensured.1
    let ok := ensured.2.1
    let tried := ensured.2.2
    if !ok then
      { result := { success := false
                    error := some "Not connected to RabbitMQ: connect failed" }
        state := s1, published := [], connectTried := tried, waitedForDrain := false }
    else if !s1.channel then
      { result := { success := false, error := some "RabbitMQ channel not available" }
        state := s1, published := [], connectTried := tried, waitedForDrain := false }
    else
      let messageId := env.freshId
      let messageSid := sid.getD env.freshSid
      let envl : Envelope := { sid := messageSid, id := messageId, «to» := «to», text := text }
      let s2 := match onDelivery with
        | some cb => { s1 with deliveryCallbacks := mapSet s1.deliveryCallbacks messageSid cb }
        | none => s1
      match env.publish with
      | .accepted =>
        { result := { success := true, messageId := some messageSid }
          state := s2, published := [envl], connectTried := tried, waitedForDrain := false }
      | .bufferFull =>
        { result := { success := true, messageId := some messageSid }
          state := s2, published := [envl], connectTried := tried, waitedForDrain := true }
      | .raise msg =>
        let s3 := match onDelivery with
          | some _ => { s2 with deliveryCallbacks := mapDelete s2.deliveryCallbacks messageSid }
          | none => s2
        { result := { success := false, error := some msg }
          state := s3, published := [], connectTried := tried, waitedForDrain := false }

/-- A delivery receipt as parsed from the callback queue. -/
structure Receipt where
  type : String
  status : String
  sid : String
deriving DecidableEq, Repr

inductive ConsumeAction
  | ack
  | nackRequeue
deriving DecidableEq, Repr

/-- Observable outcome of consuming one callback-queue message:
the broker acknowledgement performed, the callbacks invoked (as
(sid, callback) pairs), the registry immediately afterwards, and
whether the 60-second grace-period deletion of the entry was
scheduled. -/
structure ConsumeOutcome where
  action : ConsumeAction
  invoked : List (String × Nat)
  callbacks : CallbackMap
  cleanupScheduled : Bool
deriving DecidableEq, Repr

/-- The consumer of `setupDeliveryReceiptListener`: `parsed = none`
models a message whose body fails to parse (`JSON.parse` throws), which
is negatively acknowledged and requeued; a parsed receipt is looked up
in the registry, any registered callback invoked (with its removal
deferred by 60 seconds), and the message acknowledged either way. -/
def onReceiptMessage (callbacks : CallbackMap) (parsed : Option Receipt) :
    ConsumeOutcome :=
  match parsed with
  | none =>
    { action := .nackRequeue, invoked := [], callbacks := callbacks
      cleanupScheduled := false }
  | some r =>
    match mapGet callbacks r.sid with
    | some cb =>
      { action := .ack, invoked := [(r.sid, cb)], callbacks := callbacks
        cleanupScheduled := true }
    | none =>
      { action := .ack, invoked := [], callbacks := callbacks
        cleanupScheduled := false }

/-- Whether the channel / connection `close()` calls reject, as in the
catch block of `RabbitMQSender.close`. -/
structure CloseEnv where
  channelCloseRaises : Bool
  connCloseRaises : Bool
deriving DecidableEq, Repr

/-- Model of `RabbitMQSender.close`: clear the timer and the callbacks, then try
to close the channel and the connection and clear `isConnected`; any
rejection is caught and logged, leaving the remaining steps undone. -/
def close (env : CloseEnv) (s0 : SenderState) : SenderState :=
  let s := { s0 with reconnectTimer := false, deliveryCallbacks := [] }
  if s.channel && env.channelCloseRaises then s
  else
    let s1 := { s with channel := false }
    if s1.connectionModel && env.connCloseRaises then s1
    else { s1 with connectionModel := false, isConnected := false }

/-! ## Concrete fixtures used by the witness and counterexample theorems -/

/-- A sender that has successfully connected. -/
def readySenderState : SenderState :=
  { isConnected := true, channel := true, connectionModel := true }

/-- A connected sender with a callback already registered under sid
`X`. -/
def collisionState : SenderState :=
  { readySenderState with deliveryCallbacks := [("X", 0)] }

/-- A broker whose publish call throws. -/
def raiseEnv : SendEnv :=
  { connectSucceeds := true, publish := .raise "boom"
    freshId := "fid", freshSid := "fsid" }

/-- A broker whose publish call reports a full buffer (and later
drains). -/
def fullEnv : SendEnv :=
  { connectSucceeds := true, publish := .bufferFull
    freshId := "fid", freshSid := "fsid" }

/-- A broker that accepts the publish immediately. -/
def okEnv : SendEnv :=
  { connectSucceeds := true, publish := .accepted
    freshId := "fid", freshSid := "fsid" }

/-- A configuration bounding reconnection at two attempts. -/
def boundedCfg : RMQConfig :=
  { reconnectDelayMs := 100, maxReconnectAttempts := 2 }

/-- The state after the initial external `connect()` fails against an
always-failing broker. -/
def afterInitialFailure : SenderState :=
  (connectAttempt boundedCfg false initialSenderState).1

/-- The state after the first scheduled reconnect fires and fails. -/
def afterFire1 : SenderState :=
  timerFire boundedCfg false afterInitialFailure

/-- The state after the second scheduled reconnect fires and fails. -/
def afterFire2 : SenderState :=
  timerFire boundedCfg false afterFire1

/-- A destination that fails E.164 validation is rejected by `sendSMS`
from every state and environment: failure result, nothing published,
no connect attempted, state untouched. -/
def rejectsWithoutNetwork («to» : String) : Prop :=
  ∀ (cfg : RMQConfig) (env : SendEnv) (s : SenderState) (text : String)
    (sid : Option String) (cb : Option Nat),
    (sendSMS cfg env s «to» text sid cb).result.success = false
    ∧ (sendSMS cfg env s «to» text sid cb).published = []
    ∧ (sendSMS cfg env s «to» text sid cb).connectTried = false
    ∧ (sendSMS cfg env s «to» text sid cb).state = s

/-! ## Helper lemmas -/

theorem find?_isSome_of_mem {α : Type} (p : α → Bool) :
    ∀ (l : List α) (a : α), a ∈ l → p a = true → (l.find? p).isSome = true := by
  intro l
  induction l with
  | nil => intro a h; cases h
  | cons x t ih =>
    intro a h hp
    cases hx : p x with
    | true => simp [List.find?, hx]
    | false =>
      rcases List.mem_cons.mp h with h1 | h1
      · subst h1; rw [hp] at hx; cases hx
      · simp only [List.find?, hx]
        exact ih a h1 hp

theorem find?_append_left_none {α : Type} (p : α → Bool) :
    ∀ (l1 l2 : List α), (∀ x ∈ l1, p x = false) →
      (l1 ++ l2).find? p = l2.find? p := by
  intro l1
  induction l1 with
  | nil => intro l2 _; rfl
  | cons x t ih =>
    intro l2 h
    have hx : p x = false := h x (List.mem_cons_self x t)
    simp only [List.cons_append, List.find?, hx]
    exact ih l2 (fun y hy => h y (List.mem_cons_of_mem x hy))

theorem le_foldr_max (a : Nat) : ∀ (l : List Nat), a ∈ l → a ≤ l.foldr max 0 := by
  intro l
  induction l with
  | nil => intro h; cases h
  | cons x t ih =>
    intro h
    rcases List.mem_cons.mp h with h1 | h1
    · subst h1; exact Nat.le_max_left _ _
    · exact Nat.le_trans (ih h1) (Nat.le_max_right _ _)

/-- Every row already in the table has an id strictly below the next
fresh id. -/
theorem id_lt_freshId (qm : QMState) (r : Row) (h : r ∈ qm.rows) :
    r.id < freshId qm :=
  Nat.lt_succ_of_le (le_foldr_max r.id _ (List.mem_map_of_mem Row.id h))

/-- Setting a key then reading it back yields the new value. -/
theorem mapGet_mapSet_self (m : CallbackMap) (k : String) (v : Nat) :
    mapGet (mapSet m k v) k = some v := by
  induction m with
  | nil => simp [mapSet, mapGet, List.find?]
  | cons p t ih =>
    by_cases hp : p.1 == k
    · simp [mapSet, hp, mapGet, List.find?]
    · simp only [mapSet, hp, if_false, Bool.false_eq_true]
      simp only [mapGet, List.find?, hp]
      exact ih

/-- Deleting a key after setting it deletes exactly the key. -/
theorem mapDelete_mapSet_self (m : CallbackMap) (k : String) (v : Nat) :
    mapDelete (mapSet m k v) k = mapDelete m k := by
  induction m with
  | nil => simp [mapSet, mapDelete, List.filter]
  | cons p t ih =>
    by_cases hp : p.1 == k
    · simp [mapSet, hp, mapDelete, List.filter, bne, hp]
    · have hpf : (p.1 == k) = false := by revert hp; cases (p.1 == k) <;> simp
      have hb : (p.1 != k) = true := by simp [bne, hpf]
      simp only [mapSet, hp, if_false, Bool.false_eq_true]
      simp only [mapDelete] at ih ⊢
      simp only [List.filter_cons, hb, if_true]
      rw [ih]

/-! ## Claim theorems -/

/-- C2: `validateE164` accepts `+15551234567`, `+447700900123`, `+123`
and `+123456789012345`, rejects `5551234567`, `+0551234567`,
`+12345678901234567` and the empty string, and on every rejected
destination `sendSMS` returns a failure result with no connect and no
publish attempted and the transport state untouched. -/
theorem c2_e164_validation :
    validateE164 "+15551234567" = true
    ∧ validateE164 "+447700900123" = true
    ∧ validateE164 "+123" = true
    ∧ validateE164 "+123456789012345" = true
    ∧ validateE164 "5551234567" = false
    ∧ validateE164 "+0551234567" = false
    ∧ validateE164 "+12345678901234567" = false
    ∧ validateE164 "" = false
    ∧ rejectsWithoutNetwork "5551234567"
    ∧ rejectsWithoutNetwork "+0551234567"
    ∧ rejectsWithoutNetwork "+12345678901234567"
    ∧ rejectsWithoutNetwork "" := by
  refine ⟨by decide, by decide, by decide, by decide, by decide, by decide,
    by decide, by decide, ?_, ?_, ?_, ?_⟩ <;>
    exact fun cfg env s text sid cb => ⟨rfl, rfl, rfl, rfl⟩

/-- C3: with `maxReconnectAttempts = 2` and an always-failing broker,
the initial `connect()` failure schedules attempt 1, its firing
schedules attempt 2, and after the second firing no timer is pending,
no further firing ever changes the state, and the outcome is observable
via `getStatus` as `{connected := false, reconnectAttempts := 2}`;
an external `connect()` call starts connecting again. -/
theorem c3_reconnect_bound :
    afterInitialFailure.scheduledCount = 1
    ∧ afterInitialFailure.reconnectTimer = true
    ∧ afterFire1.scheduledCount = 2
    ∧ afterFire1.reconnectTimer = true
    ∧ afterFire2.scheduledCount = 2
    ∧ afterFire2.reconnectTimer = false
    ∧ (∀ n : Nat, fireMany boundedCfg false n afterFire2 = afterFire2)
    ∧ getStatus afterFire2
        = { connected := false, reconnectAttempts := 2, pendingCallbacks := 0 }
    ∧ (connectAttempt boundedCfg true afterFire2).1.isConnected = true := by
  have hfix : timerFire boundedCfg false afterFire2 = afterFire2 := by decide
  refine ⟨by decide, by decide, by decide, by decide, by decide, by decide,
    ?_, by decide, by decide⟩
  intro n
  induction n with
  | zero => rfl
  | succ k ih =>
    show fireMany boundedCfg false k (timerFire boundedCfg false afterFire2) = afterFire2
    rw [hfix]
    exact ih

/-- C5: consuming a callback-queue message: a parsed receipt whose sid
has a registered callback invokes exactly that callback once, schedules
its grace-period removal and acknowledges the broker message; a parsed
receipt with no registered callback is acknowledged and dropped without
invoking anything; an unparsable message is negatively acknowledged and
requeued. -/
theorem c5_receipt_handling :
    (∀ (cbs : CallbackMap) (x : String) (cb : Nat) (t st : String),
      onReceiptMessage (mapSet cbs x cb) (some { type := t, status := st, sid := x })
        = { action := .ack, invoked := [(x, cb)], callbacks := mapSet cbs x cb
            cleanupScheduled := true })
    ∧ (∀ (cbs : CallbackMap) (r : Receipt), mapGet cbs r.sid = none →
      onReceiptMessage cbs (some r)
        = { action := .ack, invoked := [], callbacks := cbs, cleanupScheduled := false })
    ∧ (∀ (cbs : CallbackMap),
      onReceiptMessage cbs none
        = { action := .nackRequeue, invoked := [], callbacks := cbs
            cleanupScheduled := false }) := by
  refine ⟨?_, ?_, ?_⟩
  · intro cbs x cb t st
    simp [onReceiptMessage, mapGet_mapSet_self]
  · intro cbs r h
    simp [onReceiptMessage, h]
  · intro cbs
    rfl

/-- Witness for C5: registering a callback for sid `X` then delivering
a `delivered` receipt for `X` invokes it once and acknowledges; a
receipt for the unregistered sid `Y` is acknowledged without invoking
anything. -/
theorem c5_receipt_handling_witness :
    onReceiptMessage (mapSet [] "X" 0)
        (some { type := "SMS_TYPE_STATUS", status := "delivered", sid := "X" })
      = { action := .ack, invoked := [("X", 0)], callbacks := [("X", 0)]
          cleanupScheduled := true }
    ∧ onReceiptMessage []
        (some { type := "SMS_TYPE_STATUS", status := "delivered", sid := "Y" })
      = { action := .ack, invoked := [], callbacks := [], cleanupScheduled := false } := by
  constructor
  · have h := c5_receipt_handling.1 [] "X" 0 "SMS_TYPE_STATUS" "delivered"
    simpa using h
  · exact c5_receipt_handling.2.1 [] { type := "SMS_TYPE_STATUS", status := "delivered", sid := "Y" } rfl

/-- C4: when the publish call reports a full broker-side buffer, the
`sendSMS` call suspends on the drain signal and then resolves with
`success := true` and the correlation id as `messageId`; it does not
return a failure. -/
theorem c4_backpressure (cfg : RMQConfig) (env : SendEnv) (s : SenderState)
    («to» text : String) (sid : Option String) (cb : Option Nat)
    (hv : validateE164 «to» = true) (hc : s.isConnected = true)
    (hch : s.channel = true) (hp : env.publish = .bufferFull) :
    (sendSMS cfg env s «to» text sid cb).waitedForDrain = true
    ∧ (sendSMS cfg env s «to» text sid cb).result
        = { success := true, messageId := some (sid.getD env.freshSid), error := none } := by
  constructor <;> simp [sendSMS, hv, hc, hch, hp]

/-- Witness for C4 at a concrete connected state and a full buffer. -/
theorem c4_backpressure_witness :
    validateE164 "+15551234567" = true
    ∧ fullEnv.publish = .bufferFull
    ∧ (sendSMS {} fullEnv readySenderState "+15551234567" "hi" none none).waitedForDrain = true
    ∧ (sendSMS {} fullEnv readySenderState "+15551234567" "hi" none none).result
        = { success := true, messageId := some "fsid", error := none } := by
  have h := c4_backpressure {} fullEnv readySenderState "+15551234567" "hi" none none
    (by decide) rfl rfl rfl
  exact ⟨by decide, rfl, h.1, by simpa [fullEnv] using h.2⟩

/-- C6 counterexample: with the channel `close()` call rejecting, `close`
catches the error but leaves `isConnected` set, so `getStatus` still
reports `connected = true` afterwards, contradicting the claim that
`close()` from any state leaves the transport disconnected. -/
theorem c6_close_leaves_connected_cex :
    (getStatus (close { channelCloseRaises := true, connCloseRaises := false }
        readySenderState)).connected = true := by decide

/-- C6 (amended): `close()` from any state always cancels the pending
reconnect timer, clears all registered callbacks (so `pendingCallbacks`
reads 0), never throws, and is idempotent; when the underlying channel
and connection `close()` calls do not throw it also closes both handles
and leaves the transport disconnected. -/
theorem c6_close_amended (env : CloseEnv) (s : SenderState) :
    (close env s).reconnectTimer = false
    ∧ (close env s).deliveryCallbacks = []
    ∧ (getStatus (close env s)).pendingCallbacks = 0
    ∧ close env (close env s) = close env s
    ∧ (env.channelCloseRaises = false → env.connCloseRaises = false →
        (close env s).isConnected = false ∧ (close env s).channel = false
        ∧ (close env s).connectionModel = false) := by
  cases env with
  | mk chr cor =>
    cases chr <;> cases cor <;>
      cases hch : s.channel <;> cases hcm : s.connectionModel <;>
        simp [close, getStatus, hch, hcm]

/-- Witness for C6 (amended) with well-behaved closes from a connected
state. -/
theorem c6_close_amended_witness :
    (close ⟨false, false⟩ readySenderState).reconnectTimer = false
    ∧ (close ⟨false, false⟩ readySenderState).deliveryCallbacks = []
    ∧ close ⟨false, false⟩ (close ⟨false, false⟩ readySenderState)
        = close ⟨false, false⟩ readySenderState
    ∧ (close ⟨false, false⟩ readySenderState).isConnected = false := by
  have h := c6_close_amended ⟨false, false⟩ readySenderState
  exact ⟨h.1, h.2.1, h.2.2.2.1, (h.2.2.2.2 rfl rfl).1⟩

/-- C7 counterexample: a callback is already registered under sid `X`;
a `sendSMS` with caller-supplied sid `X` and a new callback whose
publish throws removes the `X` entry entirely, so the registry ends
empty instead of being restored to its pre-send content
`[("X", 0)]`. -/
theorem c7_registry_not_restored_cex :
    (sendSMS {} raiseEnv collisionState "+15551234567" "hello" (some "X") (some 1)).result
      = { success := false, messageId := none, error := some "boom" }
    ∧ (sendSMS {} raiseEnv collisionState "+15551234567" "hello" (some "X")
        (some 1)).state.deliveryCallbacks = []
    ∧ ¬((sendSMS {} raiseEnv collisionState "+15551234567" "hello" (some "X")
        (some 1)).state.deliveryCallbacks = collisionState.deliveryCallbacks) := by
  decide

/-- C7 (amended): when the publish call throws, `sendSMS` returns
`{success := false, error := exception message}`, publishes nothing,
and deregisters the correlation id of the send: the registry equals the
pre-send registry with the entry at that correlation id removed when a
callback was supplied (hence exactly the pre-send content whenever no
callback was previously registered under that id), and is unchanged
when no callback was supplied. -/
theorem c7_publish_error_cleanup (cfg : RMQConfig) (env : SendEnv) (s : SenderState)
    («to» text : String) (sid : Option String) (cb : Option Nat) (msg : String)
    (hv : validateE164 «to» = true) (hc : s.isConnected = true)
    (hch : s.channel = true) (hp : env.publish = .raise msg) :
    (sendSMS cfg env s «to» text sid cb).result
        = { success := false, messageId := none, error := some msg }
    ∧ (sendSMS cfg env s «to» text sid cb).published = []
    ∧ (sendSMS cfg env s «to» text sid cb).state.deliveryCallbacks
        = (match cb with
           | some _ => mapDelete s.deliveryCallbacks (sid.getD env.freshSid)
           | none => s.deliveryCallbacks) := by
  refine ⟨?_, ?_, ?_⟩
  · simp [sendSMS, hv, hc, hch, hp]
  · simp [sendSMS, hv, hc, hch, hp]
  · cases cb with
    | none => simp [sendSMS, hv, hc, hch, hp]
    | some c => simp [sendSMS, hv, hc, hch, hp, mapDelete_mapSet_self]

/-- Witness for C7 (amended): no pre-registered callback under the sid,
so the registry is restored exactly. -/
theorem c7_publish_error_cleanup_witness :
    (sendSMS {} raiseEnv readySenderState "+15551234567" "hello" (some "Z") (some 1)).result
      = { success := false, messageId := none, error := some "boom" }
    ∧ (sendSMS {} raiseEnv readySenderState "+15551234567" "hello" (some "Z")
        (some 1)).state.deliveryCallbacks
      = readySenderState.deliveryCallbacks := by
  have h := c7_publish_error_cleanup {} raiseEnv readySenderState "+15551234567" "hello"
    (some "Z") (some 1) "boom" (by decide) rfl rfl rfl
  exact ⟨h.1, by simpa using h.2.2⟩

/-- C10: every successful `sendSMS` publishes exactly one envelope whose
`sid` is the caller-supplied correlation id (or the fresh default) and
whose `id` is the separately generated message id, and the returned
`messageId` is the `sid` of the envelope, not its `id`. -/
theorem c10_messageId_is_sid (cfg : RMQConfig) (env : SendEnv) (s : SenderState)
    («to» text : String) (sid : Option String) (cb : Option Nat)
    (hs : (sendSMS cfg env s «to» text sid cb).result.success = true) :
    (sendSMS cfg env s «to» text sid cb).published
        = [{ sid := sid.getD env.freshSid, id := env.freshId, «to» := «to», text := text }]
    ∧ (sendSMS cfg env s «to» text sid cb).result.messageId = some (sid.getD env.freshSid)
    ∧ (env.freshId ≠ sid.getD env.freshSid →
        (sendSMS cfg env s «to» text sid cb).result.messageId ≠ some env.freshId) := by
  by_cases hv : validateE164 «to» = true
  case neg =>
    have hv' : validateE164 «to» = false := by
      revert hv; cases validateE164 «to» <;> simp
    simp [sendSMS, hv'] at hs
  case pos =>
    have core : ∀ (hmid : (sendSMS cfg env s «to» text sid cb).result.messageId
        = some (sid.getD env.freshSid)),
        (env.freshId ≠ sid.getD env.freshSid →
          (sendSMS cfg env s «to» text sid cb).result.messageId ≠ some env.freshId) := by
      intro hmid hne h
      rw [hmid] at h
      exact hne (Option.some.inj h).symm
    cases hcon : s.isConnected with
    | true =>
      cases hch : s.channel with
      | false => simp [sendSMS, hv, hcon, hch] at hs
      | true =>
        cases hpub : env.publish with
        | accepted =>
          have hmid : (sendSMS cfg env s «to» text sid cb).result.messageId
              = some (sid.getD env.freshSid) := by simp [sendSMS, hv, hcon, hch, hpub]
          exact ⟨by simp [sendSMS, hv, hcon, hch, hpub], hmid, core hmid⟩
        | bufferFull =>
          have hmid : (sendSMS cfg env s «to» text sid cb).result.messageId
              = some (sid.getD env.freshSid) := by simp [sendSMS, hv, hcon, hch, hpub]
          exact ⟨by simp [sendSMS, hv, hcon, hch, hpub], hmid, core hmid⟩
        | raise m => simp [sendSMS, hv, hcon, hch, hpub] at hs
    | false =>
      cases hcing : s.isConnecting with
      | true =>
        cases hch : s.channel with
        | false => simp [sendSMS, connectAttempt, hv, hcon, hcing, hch] at hs
        | true =>
          cases hpub : env.publish with
          | accepted =>
            have hmid : (sendSMS cfg env s «to» text sid cb).result.messageId
                = some (sid.getD env.freshSid) := by
              simp [sendSMS, connectAttempt, hv, hcon, hcing, hch, hpub]
            exact ⟨by simp [sendSMS, connectAttempt, hv, hcon, hcing, hch, hpub], hmid, core hmid⟩
          | bufferFull =>
            have hmid : (sendSMS cfg env s «to» text sid cb).result.messageId
                = some (sid.getD env.freshSid) := by
              simp [sendSMS, connectAttempt, hv, hcon, hcing, hch, hpub]
            exact ⟨by simp [sendSMS, connectAttempt, hv, hcon, hcing, hch, hpub], hmid, core hmid⟩
          | raise m => simp [sendSMS, connectAttempt, hv, hcon, hcing, hch, hpub] at hs
      | false =>
        cases hok : env.connectSucceeds with
        | false => simp [sendSMS, connectAttempt, hv, hcon, hcing, hok] at hs
        | true =>
          cases hpub : env.publish with
          | accepted =>
            have hmid : (sendSMS cfg env s «to» text sid cb).result.messageId
                = some (sid.getD env.freshSid) := by
              simp [sendSMS, connectAttempt, hv, hcon, hcing, hok, hpub]
            exact ⟨by simp [sendSMS, connectAttempt, hv, hcon, hcing, hok, hpub], hmid, core hmid⟩
          | bufferFull =>
            have hmid : (sendSMS cfg env s «to» text sid cb).result.messageId
                = some (sid.getD env.freshSid) := by
              simp [sendSMS, connectAttempt, hv, hcon, hcing, hok, hpub]
            exact ⟨by simp [sendSMS, connectAttempt, hv, hcon, hcing, hok, hpub], hmid, core hmid⟩
          | raise m => simp [sendSMS, connectAttempt, hv, hcon, hcing, hok, hpub] at hs

/-- Witness for C10: a successful immediate send with no caller sid;
the published envelope carries `sid = "fsid"` and `id = "fid"`, and the
returned `messageId` is `"fsid"`, not `"fid"`. -/
theorem c10_messageId_is_sid_witness :
    (sendSMS {} okEnv readySenderState "+15551234567" "hi" none none).published
        = [{ sid := "fsid", id := "fid", «to» := "+15551234567", text := "hi" }]
    ∧ (sendSMS {} okEnv readySenderState "+15551234567" "hi" none none).result.messageId
        = some "fsid"
    ∧ (sendSMS {} okEnv readySenderState "+15551234567" "hi" none none).result.messageId
        ≠ some "fid" := by
  have h := c10_messageId_is_sid {} okEnv readySenderState "+15551234567" "hi" none none
    (by decide)
  refine ⟨by simpa [okEnv] using h.1, by simpa [okEnv] using h.2.1, ?_⟩
  have h3 := h.2.2 (by decide)
  simpa [okEnv] using h3

/-- Dropping down to the last element of a list that ends in `[a, b]`
yields `[b]`. -/
theorem drop_last_append_two {α : Type} (t : List α) (a b : α) :
    (t ++ [a, b]).drop ((t ++ [a, b]).length - 1) = [b] := by
  have h1 : (t ++ [a, b]).length - 1 = t.length + 1 := by
    simp [List.length_append]
  rw [h1, List.drop_append 1]
  rfl

/-- The function `addRule` inserts before the last rule, so it never changes which
rule is last. -/
theorem addRule_keeps_last (rules : List RoutingRule) (r last : RoutingRule)
    (h : rules.drop (rules.length - 1) = [last]) :
    (addRule rules r).drop ((addRule rules r).length - 1) = [last] := by
  unfold addRule
  rw [h]
  exact drop_last_append_two (rules.take (rules.length - 1)) r last

/-- Any sequence of `addRule` insertions keeps the catch-all rule
last. -/
theorem foldl_addRule_keeps_last (customs : List RoutingRule) :
    ∀ (init : List RoutingRule), init.drop (init.length - 1) = [catchAllRule] →
      (customs.foldl addRule init).drop ((customs.foldl addRule init).length - 1)
        = [catchAllRule] := by
  induction customs with
  | nil => intro init h; exact h
  | cons c cs ih =>
    intro init h
    exact ih (addRule init c) (addRule_keeps_last init c catchAllRule h)

theorem mem_of_drop_last {α : Type} (l : List α) (a : α)
    (h : l.drop (l.length - 1) = [a]) : a ∈ l := by
  have hs := List.drop_sublist (l.length - 1) l
  rw [h] at hs
  exact hs.subset (by simp)

/-- C1: whatever custom rules are added through `addRule`, the rule
list always ends in the catch-all rule, whose predicate is constantly
true and whose decision is `{priority := normal, action := queue}`;
consequently `findMatchingRule` always finds a matching rule of the
list (the dead "should never happen" fallback is never used) and
returns its decision. -/
theorem c1_routing_decision_total (customs : List RoutingRule) (m : IncomingMessage) :
    (customs.foldl addRule defaultRules).drop
        ((customs.foldl addRule defaultRules).length - 1) = [catchAllRule]
    ∧ catchAllRule.condition m = true
    ∧ catchAllRule.priority = .normal
    ∧ catchAllRule.action = .queue
    ∧ ∃ r, (customs.foldl addRule defaultRules).find? (fun r => r.condition m) = some r
        ∧ findMatchingRule (customs.foldl addRule defaultRules) m = r
        ∧ r ∈ customs.foldl addRule defaultRules := by
  have hlast := foldl_addRule_keeps_last customs defaultRules rfl
  have hmem : catchAllRule ∈ customs.foldl addRule defaultRules :=
    mem_of_drop_last _ _ hlast
  have hsome : ((customs.foldl addRule defaultRules).find?
      (fun r => r.condition m)).isSome = true :=
    find?_isSome_of_mem _ _ catchAllRule hmem rfl
  obtain ⟨r, hr⟩ := Option.isSome_iff_exists.mp hsome
  refine ⟨hlast, rfl, rfl, rfl, r, hr, ?_, ?_⟩
  · simp [findMatchingRule, hr]
  · exact List.mem_of_find?_eq_some hr

theorem mem_insertByTs (r x : Row) :
    ∀ (l : List Row), x ∈ insertByTs r l ↔ x = r ∨ x ∈ l := by
  intro l
  induction l with
  | nil => simp [insertByTs]
  | cons y ys ih =>
    by_cases h : y.timestamp ≤ r.timestamp <;>
      (simp [insertByTs, h, ih, List.mem_cons]; try tauto)

theorem pairwise_insertByTs (r : Row) :
    ∀ (l : List Row), l.Pairwise (fun a b => b.timestamp ≤ a.timestamp) →
      (insertByTs r l).Pairwise (fun a b => b.timestamp ≤ a.timestamp) := by
  intro l
  induction l with
  | nil => intro _; simp [insertByTs]
  | cons y ys ih =>
    intro hp
    rw [List.pairwise_cons] at hp
    obtain ⟨hy, hys⟩ := hp
    by_cases h : y.timestamp ≤ r.timestamp
    · simp only [insertByTs, if_pos h]
      rw [List.pairwise_cons]
      refine ⟨?_, ?_⟩
      · intro a ha
        rcases List.mem_cons.mp ha with h1 | h1
        · subst h1; exact h
        · exact Nat.le_trans (hy a h1) h
      · rw [List.pairwise_cons]; exact ⟨hy, hys⟩
    · have hr : r.timestamp ≤ y.timestamp := Nat.le_of_not_le h
      simp only [insertByTs, if_neg h]
      rw [List.pairwise_cons]
      refine ⟨?_, ih hys⟩
      intro a ha
      rcases (mem_insertByTs r a ys).mp ha with h1 | h1
      · subst h1; exact hr
      · exact hy a h1

theorem pairwise_sortNewestFirst :
    ∀ (l : List Row),
      (sortNewestFirst l).Pairwise (fun a b => b.timestamp ≤ a.timestamp) := by
  intro l
  induction l with
  | nil => simp [sortNewestFirst]
  | cons y ys ih =>
    simp only [sortNewestFirst, List.foldr] at ih ⊢
    exact pairwise_insertByTs y _ ih

theorem mem_sortNewestFirst (x : Row) :
    ∀ (l : List Row), x ∈ sortNewestFirst l ↔ x ∈ l := by
  intro l
  induction l with
  | nil => simp [sortNewestFirst]
  | cons y ys ih =>
    simp only [sortNewestFirst, List.foldr] at ih ⊢
    rw [mem_insertByTs, ih, List.mem_cons]

/-- C8 counterexample: supplying only `offset` makes `getQueue` build
`... ORDER BY timestamp DESC OFFSET ?` with no `LIMIT`; SQLite rejects
that text at prepare time, so `getQueue` throws instead of returning a
(possibly empty) list. -/
theorem c8_offset_without_limit_cex :
    getQueue ⟨[]⟩ { offset := some 1 }
      = .error "Failed to retrieve queue: near OFFSET: syntax error" := rfl

/-- C8 (amended): for every filter combination in which a (truthy)
offset only appears together with a (truthy) limit, `getQueue` returns
a list (never an error): its elements are exactly rows of the table
matching all supplied filters, ordered newest-first; without a limit
every matching row appears; and when nothing matches the result is the
empty list. (Zero-valued limit/offset and an empty-string sender are
falsy in JS and are treated as absent by the source.) -/
theorem c8_getQueue_filters (qm : QMState) (f : QueueFilters)
    (h : truthyNat f.offset = true → truthyNat f.limit = true) :
    ∃ l, getQueue qm f = .ok l
      ∧ l.Pairwise (fun a b => b.timestamp ≤ a.timestamp)
      ∧ (∀ r ∈ l, r ∈ qm.rows ∧ matchesFilters f r = true)
      ∧ (truthyNat f.limit = false →
          ∀ r ∈ qm.rows, matchesFilters f r = true → r ∈ l)
      ∧ ((∀ r ∈ qm.rows, matchesFilters f r = false) → l = []) := by
  have hsorted := pairwise_sortNewestFirst (qm.rows.filter (matchesFilters f))
  have hmemS : ∀ x : Row, x ∈ sortNewestFirst (qm.rows.filter (matchesFilters f))
      ↔ x ∈ qm.rows ∧ matchesFilters f x = true := by
    intro x
    rw [mem_sortNewestFirst, List.mem_filter]
  have hempty : (∀ r ∈ qm.rows, matchesFilters f r = false) →
      sortNewestFirst (qm.rows.filter (matchesFilters f)) = [] := by
    intro hall
    have hnil : qm.rows.filter (matchesFilters f) = [] := by
      rw [List.filter_eq_nil_iff]
      intro a ha
      rw [hall a ha]
      simp
    rw [hnil]
    rfl
  cases hl : truthyNat f.limit with
  | false =>
    have ho : truthyNat f.offset = false := by
      cases ho : truthyNat f.offset
      · rfl
      · rw [h ho] at hl; cases hl
    refine ⟨sortNewestFirst (qm.rows.filter (matchesFilters f)), ?_, hsorted, ?_, ?_, hempty⟩
    · unfold getQueue
      rw [hl, ho]
      simp
    · intro r hr; exact (hmemS r).mp hr
    · intro _ r hr hm; exact (hmemS r).mpr ⟨hr, hm⟩
  | true =>
    cases ho : truthyNat f.offset with
    | false =>
      refine ⟨(sortNewestFirst (qm.rows.filter (matchesFilters f))).take (f.limit.getD 0),
        ?_, ?_, ?_, ?_, ?_⟩
      · unfold getQueue
        rw [hl, ho]
        simp
      · exact List.Pairwise.sublist (List.take_sublist _ _) hsorted
      · intro r hr
        exact (hmemS r).mp ((List.take_sublist _ _).subset hr)
      · intro hfalse; simp [hl] at hfalse
      · intro hall; rw [hempty hall]; simp
    | true =>
      refine ⟨((sortNewestFirst (qm.rows.filter (matchesFilters f))).drop
          (f.offset.getD 0)).take (f.limit.getD 0), ?_, ?_, ?_, ?_, ?_⟩
      · unfold getQueue
        rw [hl, ho]
        simp
      · exact List.Pairwise.sublist
          ((List.take_sublist _ _).trans (List.drop_sublist _ _)) hsorted
      · intro r hr
        exact (hmemS r).mp (((List.take_sublist _ _).trans (List.drop_sublist _ _)).subset hr)
      · intro hfalse; simp [hl] at hfalse
      · intro hall; rw [hempty hall]; simp

/-- Witness for C8 (amended): on the empty table with both limit and
offset supplied, the query succeeds with the empty list. -/
theorem c8_getQueue_filters_witness :
    getQueue ⟨[]⟩ { limit := some 2, offset := some 1 } = .ok [] := by
  obtain ⟨l, hl, _, _, _, hnil⟩ :=
    c8_getQueue_filters ⟨[]⟩ { limit := some 2, offset := some 1 } (by decide)
  have he : l = [] := hnil (by intro r hr; cases hr)
  rw [hl, he]

/-- On the content `"Free prize! Click here!"` rules 1–3 do not match
and the spam rule 4 does, so it is the first match. -/
theorem c9_rule_match (sender : String) (ch : MsgChannel) (ts : Option Nat)
    (md : Option String) :
    findMatchingRule defaultRules ⟨sender, "Free prize! Click here!", ch, ts, md⟩
      = rule4 := by
  have h1 : rule1.condition ⟨sender, "Free prize! Click here!", ch, ts, md⟩ = false := rfl
  have h2 : rule2.condition ⟨sender, "Free prize! Click here!", ch, ts, md⟩ = false := rfl
  have h3 : rule3.condition ⟨sender, "Free prize! Click here!", ch, ts, md⟩ = false := rfl
  have h4 : rule4.condition ⟨sender, "Free prize! Click here!", ch, ts, md⟩ = true := rfl
  simp [findMatchingRule, defaultRules, List.find?, h1, h2, h3, h4]

/-- When the matched rule is the spam rule (action `ignore`), `process`
inserts the row as `pending`, immediately marks it `resolved` (the only
status update performed), and reports the decision `{low, ignore}`. -/
theorem process_spam_rule_spec (env : ProcEnv) (qm : QMState) (m : IncomingMessage)
    (hrule : findMatchingRule defaultRules m = rule4) :
    process env defaultRules qm m
      = ({ messageId := (freshId qm : Int), action := .ignore, priority := .low,
           notified := false, responded := false },
         QMState.mk (qm.rows.map (fun r : Row =>
              if r.id = freshId qm then { r with status := Status.resolved } else r)
            ++ [⟨freshId qm, m.sender, m.content, .low, .resolved, env.now,
                 .ignore, m.metadata⟩]),
         [(freshId qm, Status.resolved)]) := by
  have hguard : ((qm.rows ++ [(⟨freshId qm, m.sender, m.content, .low, .pending, env.now,
      .ignore, m.metadata⟩ : Row)]).any (fun r => r.id == freshId qm)) = true := by
    rw [List.any_append]
    simp
  simp [process, hrule, rule4, addToQueue, applyMark, updateStatus, hguard]

/-- C9: processing an incoming message with content
`"Free prize! Click here!"` yields the decision
`{priority := low, action := ignore}`; the stored row for the returned
message id ends with status `resolved`, and the only status update
event is the direct `pending → resolved` transition (no `processing`
phase). -/
theorem c9_spam_resolved_directly (env : ProcEnv) (qm : QMState) (sender : String)
    (ch : MsgChannel) (ts : Option Nat) (md : Option String) :
    (process env defaultRules qm ⟨sender, "Free prize! Click here!", ch, ts, md⟩).1.action
        = .ignore
    ∧ (process env defaultRules qm ⟨sender, "Free prize! Click here!", ch, ts, md⟩).1.priority
        = .low
    ∧ (process env defaultRules qm ⟨sender, "Free prize! Click here!", ch, ts, md⟩).1.messageId
        = (freshId qm : Int)
    ∧ (getMessage
        (process env defaultRules qm ⟨sender, "Free prize! Click here!", ch, ts, md⟩).2.1
        (freshId qm)).map Row.status = some .resolved
    ∧ (process env defaultRules qm ⟨sender, "Free prize! Click here!", ch, ts, md⟩).2.2
        = [(freshId qm, .resolved)] := by
  have hp := process_spam_rule_spec env qm ⟨sender, "Free prize! Click here!", ch, ts, md⟩
    (c9_rule_match sender ch ts md)
  rw [hp]
  refine ⟨rfl, rfl, rfl, ?_, rfl⟩
  have hfresh : ∀ r ∈ qm.rows, r.id ≠ freshId qm := by
    intro r hr
    exact Nat.ne_of_lt (id_lt_freshId qm r hr)
  have hnone : ∀ x ∈ qm.rows.map
      (fun r : Row => if r.id = freshId qm then { r with status := Status.resolved } else r),
      ((fun r : Row => r.id == freshId qm) x) = false := by
    intro x hx
    obtain ⟨r, hr, hfx⟩ := List.mem_map.mp hx
    have hb := hfresh r hr
    rw [← hfx]
    simp only [if_neg hb]
    exact beq_eq_false_iff_ne.mpr hb
  unfold getMessage
  rw [find?_append_left_none _ _ _ hnone]
  simp

end Antenna

